import Mathlib

/-!
Verification of the calibration-utility core of the `calcos` repository
(`lib/cosutil.py`) against its natural-language specification.

The source is shallowly embedded: Python floats are modelled as rationals
(`ℚ`), numpy integer bitmasks as `ℕ`, 2-D pixel grids as functions
`ℤ → ℤ → ℕ` together with their shape `(ny, nx)`, and fallible operations
return `Except Err _`.  Definitions follow the Python source line by line;
the few routines implemented in the `ccos` C extension (absent from the
repository sources) are modelled from the specification and marked
`Modelled from the spec:` in their doc comments.
-/

namespace Cosutil

/-- Error kinds, named as in section 7 of the specification.  In the Python
source these are `ValueError` / `RuntimeError` exceptions. -/
inductive Err where
  | invalidPolynomial
  | convergenceFailure
  | noMatchingRow
  | ambiguousRow
  | inconsistentGeofile
  | malformedSubarrayGeometry
  deriving DecidableEq, Repr

/-- Python 2 `int (round (x))`: round half away from zero, as a `ℤ`. -/
def pyRound (q : ℚ) : ℤ :=
  if 0 ≤ q then ⌊q + 1/2⌋ else -⌊-q + 1/2⌋

/-- Modelled from the spec: string wildcard sentinel for table matching
(constant `STRING_WILDCARD` of the `calcosparam` module, which is absent
from the sources). -/
def STRING_WILDCARD : String := "ANY"

/-- Modelled from the spec: the not-applicable sentinel, treated like a
wildcard in filter values (constant `NOT_APPLICABLE` of the absent
`calcosparam` module). -/
def NOT_APPLICABLE : String := "N/A"

/-- Modelled from the spec: integer wildcard sentinel (constant
`INT_WILDCARD` of the absent `calcosparam` module).  Note the source
comments out the test for it in `getTable`. -/
def INT_WILDCARD : Int := -1

/-- A table cell: FITS table columns are either string- or integer-valued
for every column the core filters on. -/
inductive Cell where
  | str (s : String)
  | int (i : Int)
  deriving DecidableEq, Repr

/-- Python `==` between a cell and a filter value (numpy elementwise
comparison): values of different types are unequal. -/
def cellEq : Cell → Cell → Bool
  | Cell.str a, Cell.str b => a == b
  | Cell.int a, Cell.int b => a == b
  | _, _ => false

/-- A table row, as an association list from column name to cell. -/
def Row : Type := List (String × Cell)

instance : DecidableEq Row := by
  unfold Row
  infer_instance

/-- Lookup `data.field (key)` for one row: the cell stored under `key`
(columns the code accesses are assumed present; missing keys default). -/
def rowField (row : Row) (key : String) : Cell :=
  match row.find? (fun kv => kv.1 == key) with
  | some kv => kv.2
  | none => Cell.int 0

/-- The test `filter[key] == STRING_WILDCARD or filter[key] == NOT_APPLICABLE` in
`getTable`: such a criterion is skipped (matches every row). -/
def isFilterWildcard (c : Cell) : Bool :=
  cellEq c (Cell.str STRING_WILDCARD) || cellEq c (Cell.str NOT_APPLICABLE)

/-- One selection criterion of `getTable` applied to one cell:
`selected = (column == filter[key])`, OR-ed with the stored-wildcard test
`(column == STRING_WILDCARD)` which the source performs only for string
(`chararray`) columns — the integer-wildcard test is commented out. -/
def cellMatches (fv cell : Cell) : Bool :=
  cellEq cell fv ||
    (match cell with
     | Cell.str s => s == STRING_WILDCARD
     | Cell.int _ => false)

/-- Whether a row passes every non-trivial criterion of the filter
(the `logical_and` fold over `select_arrays` in `getTable`, read
row-wise: numpy builds one boolean array per criterion and ANDs them). -/
def rowMatch (filter : List (String × Cell)) (row : Row) : Bool :=
  filter.all fun kv => isFilterWildcard kv.2 || cellMatches kv.2 (rowField row kv.1)

/-- The selected rows of `getTable`: rows passing all non-trivial
criteria.  When every criterion is trivial the source copies the whole
table, which coincides with filtering by the vacuously-true predicate. -/
def selectRows (tbl : List Row) (filter : List (String × Cell)) : List Row :=
  tbl.filter (rowMatch filter)

/-- Embedding of `getTable (table, filter, exactly_one, at_least_one)`:
returns `none` when no row matches (and neither flag demands one), raises
`NoMatchingRow` when a flag demands a match and none exists.  With
`exactly_one` and several matches the source only warns and the caller
uses the first row. -/
def getTable (tbl : List Row) (filter : List (String × Cell))
    (exactly_one at_least_one : Bool) : Except Err (Option (List Row)) :=
  let newdata := selectRows tbl filter
  let nselect := newdata.length
  if (exactly_one || at_least_one) && nselect < 1 then
    Except.error Err.noMatchingRow
  else if nselect < 1 then
    Except.ok none
  else
    Except.ok (some newdata)

/-! ### DispersionSolver: `evalDisp`, `evalDerivDisp`, `evalInvDisp` -/

/-- The Horner loop of `evalDisp`:
`sum = coeff[n-1]; for i in n-2..0: sum = sum * x_prime + coeff[i]`. -/
def horner (coeff : List ℚ) (xp : ℚ) : ℚ :=
  coeff.foldr (fun c acc => acc * xp + c) 0

/-- The degree-weighted coefficient list of `evalDerivDisp`:
`[1*coeff[1], 2*coeff[2], ...]`. -/
def derivCoeff (coeff : List ℚ) : List ℚ :=
  (coeff.enum.drop 1).map fun kc => (kc.1 : ℚ) * kc.2

/-- Embedding of `evalDisp (x, coeff, delta)`: Horner evaluation of the dispersion
polynomial at `x - delta`; raises `ValueError` (spec kind
`InvalidPolynomial`) when fewer than two coefficients are given. -/
def evalDisp (x : ℚ) (coeff : List ℚ) (delta : ℚ) : Except Err ℚ :=
  if coeff.length < 2 then Except.error Err.invalidPolynomial
  else Except.ok (horner coeff (x - delta))

/-- Embedding of `evalDerivDisp (x, coeff, delta)`: Horner evaluation of the analytic
derivative at `x - delta`, with the same degree check. -/
def evalDerivDisp (x : ℚ) (coeff : List ℚ) (delta : ℚ) : Except Err ℚ :=
  if coeff.length < 2 then Except.error Err.invalidPolynomial
  else Except.ok (horner (derivCoeff coeff) (x - delta))

/-- One Newton step of `evalInvDisp` (scalar path):
`x += (wavelength - evalDisp (x)) / evalDerivDisp (x)`. -/
def newtonStep (w : ℚ) (coeff : List ℚ) (delta : ℚ) (x : ℚ) : ℚ :=
  x + (w - horner coeff (x - delta)) / horner (derivCoeff coeff) (x - delta)

/-- The `while not done` loop of `evalInvDisp`, indexed by fuel.  The
source loop has NO iteration bound: `none` means the loop has still not
satisfied its stopping test `abs (x - x_prev) < tiny` after `fuel`
iterations (i.e. the source would still be running). -/
def invDispLoop (w : ℚ) (coeff : List ℚ) (delta tiny : ℚ) :
    ℕ → ℚ → Option ℚ
  | 0, _ => none
  | fuel + 1, x =>
    let x1 := newtonStep w coeff delta x
    if |x1 - x| < tiny then some x1
    else invDispLoop w coeff delta tiny fuel x1

/-- Embedding of `evalInvDisp (wavelength, coeff, delta, tiny)` on a scalar wavelength
(initial guess `x = 0`), unrolled to `fuel` iterations of the unbounded
source loop; `Except.ok none` means the source loop is still iterating
after `fuel` steps. -/
def evalInvDisp (fuel : ℕ) (w : ℚ) (coeff : List ℚ)
    (delta tiny : ℚ) : Except Err (Option ℚ) :=
  if coeff.length < 2 then Except.error Err.invalidPolynomial
  else Except.ok (invDispLoop w coeff delta |tiny| fuel 0)

/-! ### Pixel grids and detector constants -/

/-- A 2-D pixel grid of integer bitmasks, as a function from (row,
column) to the stored DQ value; the shape `(ny, nx)` is carried
separately, as in `dq_array.shape`. -/
def Grid : Type := ℤ → ℤ → ℕ

/-- Pixelwise `N.bitwise_or (a, b)`. -/
def gridOr (a b : Grid) : Grid := fun i j => a i j ||| b i j

/-- Modelled from the spec: detector dimension constants of the absent
`calcosparam` module (`NUV_X`). -/
def NUV_X : ℤ := 1024

/-- Modelled from the spec: `NUV_Y` of the absent `calcosparam` module. -/
def NUV_Y : ℤ := 1024

/-- Modelled from the spec: `FUV_X` of the absent `calcosparam` module. -/
def FUV_X : ℤ := 16384

/-- Modelled from the spec: `FUV_Y` of the absent `calcosparam` module. -/
def FUV_Y : ℤ := 1024

/-- Modelled from the spec: the out-of-bounds DQ flag bit of the absent
`calcosparam` module (`DQ_OUT_OF_BOUNDS`). -/
def DQ_OUT_OF_BOUNDS : ℕ := 128

/-- Modelled from the spec: `DQ_OK` (no flags) of the absent
`calcosparam` module. -/
def DQ_OK : ℕ := 0

/-- Modelled from the spec: `SEC_PER_DAY` of the absent `calcosparam`
module (days-to-seconds conversion). -/
def SEC_PER_DAY : ℚ := 86400

/-! ### DopplerShiftEstimator: `minmaxDoppler` -/

/-- The `N.minimum.reduce`-style minimum of a list (`shift.min()`); the
source only applies it to non-empty arrays. -/
def npMin : List ℚ → ℚ
  | [] => 0
  | h :: t => t.foldl min h

/-- Maximum of a list (`shift.max()`); applied to non-empty arrays. -/
def npMax : List ℚ → ℚ
  | [] => 0
  | h :: t => t.foldl max h

/-- The sampled shift sequence of `minmaxDoppler`:
`time = N.arange (nelem) + (expstart - doppzero) * SEC_PER_DAY` and
`shift = -doppmag * N.sin (2 * N.pi * time / orbitper)`.  The float
`sin` routine and the float constant `N.pi` are parameters of the
embedding (`sinq`, `piq`): floating-point transcendentals are not
re-derived, only the sampling structure is. -/
def dopplerSamples (sinq : ℚ → ℚ) (piq : ℚ)
    (expstart doppzero doppmag orbitper : ℚ) (nelem : ℕ) : List ℚ :=
  (List.range nelem).map fun k =>
    -doppmag * sinq (2 * piq * ((k : ℚ) + (expstart - doppzero) * SEC_PER_DAY) / orbitper)

/-- Embedding of `minmaxDoppler (info, doppcorr, doppmag, doppzero, orbitper)`.
Returns `(0, 0)` unless `doppcorr == "PERFORM"`; otherwise the min and
max of the shift sequence sampled at 1-second spacing over
`max (int (round (exptime)), 1)` samples. -/
def minmaxDoppler (sinq : ℚ → ℚ) (piq : ℚ)
    (expstart exptime : ℚ) (doppcorr : String)
    (doppmag doppzero orbitper : ℚ) : ℚ × ℚ :=
  if doppcorr == "PERFORM" then
    let nelem : ℕ := (max (pyRound exptime) 1).toNat
    let shift := dopplerSamples sinq piq expstart doppzero doppmag orbitper nelem
    (npMin shift, npMax shift)
  else
    (0, 0)

/-! ### DQArrayBuilder: `updateDQArray` -/

/-- Integer cell content of a row field (`lx`, `ly`, `dx`, `dy`, `dq`,
`a_low`, ... are integer columns). -/
def cellInt (c : Cell) : ℤ :=
  match c with
  | Cell.int i => i
  | Cell.str _ => 0

/-- The smeared inclusive bounds `(lx, ux, ly, uy)` computed by
`updateDQArray` for one bad-pixel row, from lines 657-673 of the source:
`ux = lx + dx - 1`, `uy = ly + dy - 1`, then the shift envelope is
subtracted (max from the lower bound and min from the upper bound when
the max is non-negative, min from the lower and max from the upper
otherwise, independently per axis), and finally the rounded Doppler
envelope is added to the dispersion-axis bounds. -/
def dqBounds (lx ly dx dy : ℤ)
    (min_shift1 max_shift1 min_shift2 max_shift2 : ℚ)
    (mindopp maxdopp : ℚ) : ℤ × ℤ × ℤ × ℤ :=
  let ux := lx + dx - 1
  let uy := ly + dy - 1
  let lx1 := if 0 ≤ max_shift1 then lx - pyRound max_shift1 else lx - pyRound min_shift1
  let ux1 := if 0 ≤ max_shift1 then ux - pyRound min_shift1 else ux - pyRound max_shift1
  let ly1 := if 0 ≤ max_shift2 then ly - pyRound max_shift2 else ly - pyRound min_shift2
  let uy1 := if 0 ≤ max_shift2 then uy - pyRound min_shift2 else uy - pyRound max_shift2
  (lx1 + pyRound mindopp, ux1 + pyRound maxdopp, ly1, uy1)

/-- Modelled from the spec: `ccos.bindq` (C extension, absent from the
sources).  Per spec section 4.6: add `x_offset` to the dispersion-axis
bounds, clip to the grid extents, and OR the row flag value into the DQ
array over the resulting rectangle, row by row of the bad-pixel table. -/
def bindq (rows : List (ℤ × ℤ × ℤ × ℤ × ℕ)) (dq : Grid)
    (ny nx : ℕ) (x_offset : ℤ) : Grid :=
  rows.foldl
    (fun g r =>
      let lx := r.1; let ux := r.2.1; let ly := r.2.2.1; let uy := r.2.2.2.1
      let flag := r.2.2.2.2
      fun i j =>
        if ly ≤ i ∧ i ≤ uy ∧ lx + x_offset ≤ j ∧ j ≤ ux + x_offset ∧
           0 ≤ i ∧ i < (ny : ℤ) ∧ 0 ≤ j ∧ j < (nx : ℤ) then
          g i j ||| flag
        else g i j)
    dq

/-- Embedding of `updateDQArray (bpixtab, info, dq_array, minmax_shifts,
minmax_doppler)`: selects the bad-pixel rows for the exposure segment
(no-op when none match), computes the smeared bounds per row, and merges
the flags into the DQ array through `bindq`. -/
def updateDQArray (bpixtab : List Row) (segment : String)
    (dq : Grid) (ny nx : ℕ) (x_offset : ℤ)
    (min_shift1 max_shift1 min_shift2 max_shift2 : ℚ)
    (mindopp maxdopp : ℚ) : Grid :=
  match getTable bpixtab [("segment", Cell.str segment)] false false with
  | Except.error _ => dq
  | Except.ok none => dq
  | Except.ok (some rows) =>
    let bounded := rows.map fun r =>
      let b := dqBounds (cellInt (rowField r "lx")) (cellInt (rowField r "ly"))
        (cellInt (rowField r "dx")) (cellInt (rowField r "dy"))
        min_shift1 max_shift1 min_shift2 max_shift2 mindopp maxdopp
      (b.1, b.2.1, b.2.2.1, b.2.2.2, (cellInt (rowField r "dq")).toNat)
    bindq bounded dq ny nx x_offset

/-! ### ActiveAreaLimits: `activeArea` -/

/-- Embedding of `activeArea (segment, brftab)`: fixed full-frame limits for NUV
(segment beginning with `N`); an `exactly_one` lookup of
`{a_low, a_high, a_left, a_right}` by segment in the `brftab` for FUV. -/
def activeArea (segment : String) (brftab : List Row) :
    Except Err (ℤ × ℤ × ℤ × ℤ) :=
  if segment.take 1 == "N" then
    Except.ok (0, NUV_Y - 1, 0, NUV_X - 1)
  else
    match getTable brftab [("segment", Cell.str segment)] true false with
    | Except.error e => Except.error e
    | Except.ok none => Except.error Err.noMatchingRow
    | Except.ok (some rows) =>
      let r := rows.headD []
      Except.ok (cellInt (rowField r "a_low"), cellInt (rowField r "a_high"),
                 cellInt (rowField r "a_left"), cellInt (rowField r "a_right"))

/-! ### `clearSubarray`, `applyOffsets`, `flagOutsideActiveArea` -/

/-- Python slice start/stop index semantics on an axis of length `n`:
negative indices count from the end, then the index is clamped to
`[0, n]`. -/
def pySliceIdx (s : ℤ) (n : ℕ) : ℤ :=
  if s < 0 then max (s + (n : ℤ)) 0 else min s (n : ℤ)

/-- Embedding of `clearSubarray (temp, x0, x1, y0, y1, dx, dy, x_offset)`: shift the
rectangle by `x_offset` and `-dx, -dy`, clamp the lower bounds to at
least 0 and the upper bounds to at most `nx`, `ny`, and set the clipped
rectangle of the scratch grid to `DQ_OK`. -/
def clearSubarray (temp : Grid) (ny nx : ℕ)
    (x0 x1 y0 y1 dx dy x_offset : ℤ) : Grid :=
  let x0c := max (x0 + x_offset - dx) 0
  let y0c := max (y0 - dy) 0
  let x1c := min (x1 + x_offset - dx) (nx : ℤ)
  let y1c := min (y1 - dy) (ny : ℤ)
  fun i j =>
    if y0c ≤ i ∧ i < y1c ∧ x0c ≤ j ∧ j < x1c then DQ_OK else temp i j

/-- Embedding of `applyOffsets (x_left, x_right, nx, dx, x_offset)` on boundary-edge
coordinate functions: add `x_offset`, subtract `dx`, clamp the left edge
below by 0 (`N.where (x_left < 0, 0, x_left)`) and the right edge above
by `nx - 1`. -/
def applyOffsets (x_left x_right : ℤ → ℚ) (nx : ℕ) (dx x_offset : ℤ) :
    (ℤ → ℚ) × (ℤ → ℚ) :=
  (fun t => max (x_left t + (x_offset : ℚ) - (dx : ℚ)) 0,
   fun t => min (x_right t + (x_offset : ℚ) - (dx : ℚ)) ((nx : ℚ) - 1))

/-- Embedding of `flagOutsideActiveArea (dq_array, segment, brftab, minmax_shifts,
minmax_doppler)`: no-op unless the segment is FUV; shifts the active-area
limits by the rounded shift and Doppler envelopes, then ORs
`DQ_OUT_OF_BOUNDS` into the four guarded border slices. -/
def flagOutsideActiveArea (dq : Grid) (ny nx : ℕ) (segment : String)
    (brftab : List Row)
    (min_shift1 max_shift1 min_shift2 max_shift2 : ℚ)
    (mindopp maxdopp : ℚ) : Except Err Grid :=
  if ¬ (segment.take 3 == "FUV") then Except.ok dq
  else
    match activeArea segment brftab with
    | Except.error e => Except.error e
    | Except.ok (b_low0, b_high0, b_left0, b_right0) =>
      let b_left := b_left0 - pyRound min_shift1 + pyRound maxdopp
      let b_right := b_right0 - pyRound max_shift1 + pyRound mindopp
      let b_low := b_low0 - pyRound min_shift2
      let b_high := b_high0 - pyRound max_shift2
      Except.ok (fun i j =>
        let inGrid := 0 ≤ i ∧ i < (ny : ℤ) ∧ 0 ≤ j ∧ j < (nx : ℤ)
        let v := dq i j
        let v := if b_low ≥ 0 ∧ inGrid ∧ i < pySliceIdx b_low ny then
                   v ||| DQ_OUT_OF_BOUNDS else v
        let v := if b_high < (ny : ℤ) - 1 ∧ inGrid ∧ pySliceIdx (b_high + 1) ny ≤ i then
                   v ||| DQ_OUT_OF_BOUNDS else v
        let v := if b_left ≥ 0 ∧ inGrid ∧ j < pySliceIdx b_left nx then
                   v ||| DQ_OUT_OF_BOUNDS else v
        let v := if b_right < (nx : ℤ) - 1 ∧ inGrid ∧ pySliceIdx (b_right + 1) nx ≤ j then
                   v ||| DQ_OUT_OF_BOUNDS else v
        v)

/-! ### OutOfBoundsFlagger: `flagOutOfBounds` -/

/-- The primary-header fields `flagOutOfBounds` reads:
`phdr.has_key ("subarray")`, `phdr["subarray"]`, `phdr["segment"]`. -/
structure PrimaryHdr where
  hasSubarray : Bool
  subarray : Bool
  segment : String

/-- The extension-header fields `flagOutOfBounds` reads: the
`nsubarry` count and the 0-indexed `cornerNx`/`cornerNy`/`sizeNx`/
`sizeNy` keyword families. -/
structure ExtHdr where
  nsubarry : ℤ
  cornerX : ℕ → ℤ
  cornerY : ℕ → ℤ
  sizeX : ℕ → ℤ
  sizeY : ℕ → ℤ

/-- The `info` dictionary fields used: `x_offset`, `detector`,
`segment`. -/
structure Info where
  x_offset : ℤ
  detector : String
  segment : String

/-- The calibration switches used: `tempcorr`, `geocorr`, `igeocorr`. -/
structure Switches where
  tempcorr : String
  geocorr : String
  igeocorr : String

/-- The `stim_param` dictionary of lists (thermal-distortion fit):
keys `x0`, `xslope`, `y0`, `yslope`. -/
structure StimParam where
  x0 : List ℚ
  xslope : List ℚ
  y0 : List ℚ
  yslope : List ℚ

/-- One entry of the `subarrays` list built by `flagOutOfBounds`:
`x1`/`y1` are exclusive (slice-style) limits.  Rational-valued because
the thermal remap produces non-integral corners. -/
structure SubRect where
  x0 : ℚ
  y0 : ℚ
  x1 : ℚ
  y1 : ℚ

/-- One image HDU of the geometric-distortion reference file: the
`origin_x`, `origin_y`, `xbin`, `ybin` header keywords (`.get` defaults
already applied) and the offset grid held in its data portion.  The
grid, its interpolated lookup, and the `igeocorr` interpolation-mode
toggle are abstracted into one offset field function (the grids
themselves live in a FITS file; the header checks are source code). -/
structure GeoHdu where
  origin_x : ℚ
  origin_y : ℚ
  xbin : ℚ
  ybin : ℚ
  data : ℚ → ℚ → ℚ

/-- The geofile as opened by `getGeoData`: the X-correction HDU
(`fd[(segment, 1)]`) and the Y-correction HDU (`fd[(segment, 2)]`),
each with its own header keywords. -/
structure GeoFile where
  x_hdu : GeoHdu
  y_hdu : GeoHdu

/-- The checked geofile data returned by `getGeoData`: the two offset
fields together with the shared origin and binning (the source returns
the 6-tuple `(x_data, origin_x, xbin, y_data, origin_y, ybin)` only
after the consistency checks pass). -/
structure GeoData where
  gx : ℚ → ℚ → ℚ
  gy : ℚ → ℚ → ℚ
  origin_x : ℚ
  origin_y : ℚ
  xbin : ℚ
  ybin : ℚ

/-- Embedding of `getGeoData (geofile, segment)` (source lines
988-1007): reads origin and binning from the X HDU, raises
`InconsistentGeofile` when the Y HDU disagrees on `origin_x`/`origin_y`
or on `xbin`/`ybin`, and otherwise returns the checked data. -/
def getGeoData (f : GeoFile) : Except Err GeoData :=
  let origin_x := f.x_hdu.origin_x
  let origin_y := f.x_hdu.origin_y
  if origin_x ≠ f.y_hdu.origin_x ∨ origin_y ≠ f.y_hdu.origin_y then
    Except.error Err.inconsistentGeofile
  else
    let xbin := f.x_hdu.xbin
    let ybin := f.x_hdu.ybin
    if xbin ≠ f.y_hdu.xbin ∨ ybin ≠ f.y_hdu.ybin then
      Except.error Err.inconsistentGeofile
    else
      Except.ok ⟨f.x_hdu.data, f.y_hdu.data, origin_x, origin_y, xbin, ybin⟩

/-- The subarray slot indices enumerated by `flagOutOfBounds`: slots
0-3 for FUVA, 4-7 for FUVB, and `range (nsubarrays)` for NUV. -/
def subarrayIndices (detector phdrSegment : String) (nsubarrays : ℤ) :
    List ℕ :=
  if detector == "FUV" then
    if phdrSegment == "FUVB" then [4, 5, 6, 7] else [0, 1, 2, 3]
  else
    List.range nsubarrays.toNat

/-- The subarray-list construction loop of `flagOutOfBounds` (source
lines 746-766): slots with non-positive `xsize` or `ysize` are skipped
(`continue`), slots equal to the full detector size are skipped, and the
kept rectangles get exclusive upper limits shrunk by the smear widths. -/
def buildSubarrays (hdr : ExtHdr) (detector : String)
    (xwidth ywidth : ℤ) (indices : List ℕ) : List SubRect :=
  indices.filterMap fun i =>
    let x0 := hdr.cornerX i
    let y0 := hdr.cornerY i
    let xsize := hdr.sizeX i
    let ysize := hdr.sizeY i
    if xsize ≤ 0 ∨ ysize ≤ 0 then none
    else if detector == "FUV" ∧ ysize = FUV_Y ∧ xsize = FUV_X then none
    else if detector == "NUV" ∧ ysize = NUV_Y ∧ xsize = NUV_X then none
    else some ⟨(x0 : ℚ), (y0 : ℚ), ((x0 + xsize - xwidth : ℤ) : ℚ),
               ((y0 + ysize - ywidth : ℤ) : ℚ)⟩

/-- The full-frame fallback of `flagOutOfBounds`: when no subarray
rectangle survives, one full-size rectangle is synthesized. -/
def withFallback (subs : List SubRect) (detector : String) :
    List SubRect :=
  if subs.isEmpty then
    if detector == "FUV" then [⟨0, 0, (FUV_X : ℚ), (FUV_Y : ℚ)⟩]
    else [⟨0, 0, (NUV_X : ℚ), (NUV_Y : ℚ)⟩]
  else subs

/-- The thermal-distortion remap of `flagOutOfBounds` (`tempcorr`
branch): corners mapped through the fitted linear model, using the first
(expected only) parameter set. -/
def thermalRemap (stim : StimParam) (subs : List SubRect) :
    List SubRect :=
  let xintercept := stim.x0.headD 0
  let xslope := stim.xslope.headD 0
  let yintercept := stim.y0.headD 0
  let yslope := stim.yslope.headD 0
  subs.map fun s =>
    ⟨xintercept + s.x0 * xslope, yintercept + s.y0 * yslope,
     xintercept + (s.x1 - 1) * xslope + 1,
     yintercept + (s.y1 - 1) * yslope + 1⟩

/-- The per-subarray loop of `flagOutOfBounds`: rectangles entirely
outside the active area (stim windows) are cleared in the scratch grid
directly; the others are counted (`nfound`) and the last one remembered
(`save_sub`).  Non-integral corners (thermal remap) reach Python array
slicing, modelled by `Rat.floor`. -/
def oobLoop (temp0 : Grid) (ny nx : ℕ) (b_low b_high : ℤ)
    (dx dy x_offset : ℤ) (subs : List SubRect) :
    Grid × ℕ × Option SubRect :=
  subs.foldl
    (fun st sub =>
      if sub.y1 < (b_low : ℚ) ∨ sub.y0 > (b_high : ℚ) then
        (clearSubarray st.1 ny nx ⌊sub.x0⌋ ⌊sub.x1⌋ ⌊sub.y0⌋ ⌊sub.y1⌋
          dx dy x_offset, st.2.1, st.2.2)
      else
        (st.1, st.2.1 + 1, some sub))
    (temp0, 0, none)

/-- Modelled from the spec: `ccos.geocorrection` (C extension, absent
from the sources) applied to a single point — the point is shifted by
the distortion offset field looked up at its binned, origin-shifted
position. -/
def geoCorrectPoint (geo : GeoData) (x y : ℚ) : ℚ × ℚ :=
  let u := (x - geo.origin_x) / geo.xbin
  let v := (y - geo.origin_y) / geo.ybin
  (x + geo.gx u v, y + geo.gy u v)

/-- Modelled from the spec: the net effect of `ccos.geocorrection`
followed by `ccos.interp1d` resampling on the lower boundary edge of the
illuminated rectangle — the corrected edge ordinate as a function of the
uniform (integer) abscissa. -/
def lowerEdge (geo : GeoData) (sub : SubRect) : ℤ → ℚ :=
  fun u => (geoCorrectPoint geo (u : ℚ) sub.y0).2

/-- Modelled from the spec: corrected, resampled upper boundary edge. -/
def upperEdge (geo : GeoData) (sub : SubRect) : ℤ → ℚ :=
  fun u => (geoCorrectPoint geo (u : ℚ) (sub.y1 - 1)).2

/-- Modelled from the spec: corrected, resampled left boundary edge. -/
def leftEdge (geo : GeoData) (sub : SubRect) : ℤ → ℚ :=
  fun u => (geoCorrectPoint geo sub.x0 (u : ℚ)).1

/-- Modelled from the spec: corrected, resampled right boundary edge. -/
def rightEdge (geo : GeoData) (sub : SubRect) : ℤ → ℚ :=
  fun u => (geoCorrectPoint geo (sub.x1 - 1) (u : ℚ)).1

/-- Modelled from the spec: `ccos.clear_rows` (C extension, absent from
the sources) — clears the scratch-grid pixels lying between the lower
and upper row edges and between the left and right column edges. -/
def clearRows (temp : Grid) (ny nx : ℕ)
    (y_lower y_upper x_left x_right : ℤ → ℚ) : Grid :=
  fun i j =>
    if 0 ≤ i ∧ i < (ny : ℤ) ∧ 0 ≤ j ∧ j < (nx : ℤ) ∧
       y_lower j ≤ (i : ℚ) ∧ (i : ℚ) ≤ y_upper j ∧
       x_left i ≤ (j : ℚ) ∧ (j : ℚ) ≤ x_right i then DQ_OK
    else temp i j

/-- The `geocorr == "PERFORM"` branch of `flagOutOfBounds`: boundary
edges of the (last found) illuminated rectangle are distortion-corrected
and resampled, the shift/Doppler offsets applied with clamping
(`applyOffsets`, lines 895-904 of the source), and the scratch grid
cleared between the resulting edges. -/
def geoClearBranch (temp : Grid) (ny nx : ℕ) (geo : GeoData)
    (sub : SubRect) (dx dy x_offset : ℤ) : Grid :=
  let p := applyOffsets (lowerEdge geo sub) (upperEdge geo sub) ny dy 0
  let q := applyOffsets (leftEdge geo sub) (rightEdge geo sub) nx dx x_offset
  clearRows temp ny nx p.1 p.2 q.1 q.2

/-- Embedding of `flagOutOfBounds (phdr, hdr, dq_array, stim_param, info, switches,
brftab, geofile, minmax_shifts, minmax_doppler)`.  Returns the DQ array
unchanged when the exposure is not subarray-windowed; otherwise builds
the fully-flagged scratch grid, clears the subarray windows in it, and
ORs it into the DQ array.  When `geocorr` is PERFORM the geofile is
opened and checked through `getGeoData`, whose `InconsistentGeofile`
raise propagates.  (When `geocorr` is PERFORM and no illuminated
rectangle was found the source would hit an undefined local variable
after the `getGeoData` call; the model leaves the scratch grid
untouched in that dead corner.) -/
def flagOutOfBounds (phdr : PrimaryHdr) (hdr : ExtHdr) (dq : Grid)
    (ny nx : ℕ) (stim : StimParam) (info : Info) (sw : Switches)
    (brftab : List Row) (geofile : GeoFile)
    (min_shift1 max_shift1 min_shift2 max_shift2 : ℚ)
    (mindopp maxdopp : ℚ) : Except Err Grid :=
  if ¬ phdr.hasSubarray then Except.ok dq
  else if ¬ phdr.subarray then Except.ok dq
  else if hdr.nsubarry < 1 then Except.ok dq
  else
    let x_offset := info.x_offset
    let dx := pyRound (min_shift1 - maxdopp)
    let dy := pyRound min_shift2
    let xwidth := pyRound (max_shift1 - min_shift1 + maxdopp - mindopp)
    let ywidth := pyRound (max_shift2 - min_shift2)
    let indices := subarrayIndices info.detector phdr.segment hdr.nsubarry
    let subs0 := withFallback
      (buildSubarrays hdr info.detector xwidth ywidth indices) info.detector
    let subs := if sw.tempcorr == "PERFORM" then thermalRemap stim subs0
                else subs0
    match activeArea info.segment brftab with
    | Except.error e => Except.error e
    | Except.ok lims =>
      let b_low := lims.1
      let b_high := lims.2.1
      let temp0 : Grid := fun _ _ => DQ_OUT_OF_BOUNDS
      let st := oobLoop temp0 ny nx b_low b_high dx dy x_offset subs
      if sw.geocorr == "PERFORM" then
        match getGeoData geofile with
        | Except.error e => Except.error e
        | Except.ok geo =>
          let temp1 :=
            match st.2.2 with
            | some sub => geoClearBranch st.1 ny nx geo sub dx dy x_offset
            | none => st.1
          Except.ok (gridOr dq temp1)
      else
        let temp1 :=
          match st.2.2 with
          | some sub => clearSubarray st.1 ny nx ⌊sub.x0⌋ ⌊sub.x1⌋
              ⌊sub.y0⌋ ⌊sub.y1⌋ dx dy x_offset
          | none => st.1
        Except.ok (gridOr dq temp1)

/-! ### StatisticsAggregator: `computeStat`, `combineStat` -/

/-- The statistics record returned by `computeStat` / `combineStat`
(fixed key set `ngoodpix`, `sci_goodmax`, `sci_goodmean`,
`err_goodmax`, `err_goodmean`). -/
structure Stat where
  ngoodpix : ℕ
  sci_goodmax : ℚ
  sci_goodmean : ℚ
  err_goodmax : ℚ
  err_goodmean : ℚ
  deriving DecidableEq, Repr

/-- Summation `N.sum` over a (raveled) band. -/
def npSum (l : List ℚ) : ℚ := l.foldl (· + ·) 0

/-- Selection `band[mask]` where `mask = N.where (dq_band & sdqflags == 0)`: the
band entries whose DQ value has no serious flag set. -/
def maskedSelect (band : List ℚ) (dqb : List ℕ) (sdqflags : ℕ) :
    List ℚ :=
  ((band.zip dqb).filter fun p => p.2 &&& sdqflags == 0).map Prod.fst

/-- Embedding of `computeStat (sci_band, err_band, dq_band, sdqflags)`: count, max
and mean of the science band over good pixels (all pixels when no DQ
band is given), plus max and mean of the error band when present; all
divisions are guarded by `ngoodpix > 0` and the defaults are zero. -/
def computeStat (sci : List ℚ) (err : Option (List ℚ))
    (dqb : Option (List ℕ)) (sdqflags : ℕ) : Stat :=
  let sci_good :=
    match dqb with
    | none => sci
    | some fl => maskedSelect sci fl sdqflags
  let ngoodpix := sci_good.length
  let base : Stat := ⟨ngoodpix, 0, 0, 0, 0⟩
  let s1 :=
    if 0 < ngoodpix then
      { base with sci_goodmax := npMax sci_good,
                  sci_goodmean := npSum sci_good / (ngoodpix : ℚ) }
    else base
  match err with
  | none => s1
  | some errb =>
    let err_good :=
      match dqb with
      | none => errb
      | some fl => maskedSelect errb fl sdqflags
    if 0 < ngoodpix then
      { s1 with err_goodmax := npMax err_good,
                err_goodmean := npSum err_good / (ngoodpix : ℚ) }
    else s1

/-- The accumulator of the `combineStat` loop: summed count, running
maxima (initialized to 0), and count-weighted sums of means. -/
structure CombAcc where
  sum_n : ℕ
  sci_max : ℚ
  sci_sum : ℚ
  err_max : ℚ
  err_sum : ℚ

/-- One iteration of the `combineStat` loop: records whose count is not
positive are skipped entirely (the `err_goodmax` key is always present
in records produced by `computeStat`, so the `has_key` test passes). -/
def combineStep (a : CombAcc) (st : Stat) : CombAcc :=
  if 0 < st.ngoodpix then
    ⟨a.sum_n + st.ngoodpix,
     max a.sci_max st.sci_goodmax,
     a.sci_sum + (st.ngoodpix : ℚ) * st.sci_goodmean,
     max a.err_max st.err_goodmax,
     a.err_sum + (st.ngoodpix : ℚ) * st.err_goodmean⟩
  else a

/-- Embedding of `combineStat (stat_info)`: a single-element list is returned
unchanged; otherwise counts are summed, maxima folded from 0 over the
positive-count records, and the weighted mean sums divided by the total
count when it is positive. -/
def combineStat (l : List Stat) : Stat :=
  if l.length = 1 then l.headD ⟨0, 0, 0, 0, 0⟩
  else
    let a := l.foldl combineStep ⟨0, 0, 0, 0, 0⟩
    if 0 < a.sum_n then
      ⟨a.sum_n, a.sci_max, a.sci_sum / (a.sum_n : ℚ),
       a.err_max, a.err_sum / (a.sum_n : ℚ)⟩
    else
      ⟨a.sum_n, a.sci_max, a.sci_sum, a.err_max, a.err_sum⟩

/-! ## Claim C1: termination of the inverse-dispersion Newton iteration -/

lemma newtonStep_cycle0 : newtonStep 0 [2, -2, 0, 1] 0 0 = 1 := by
  norm_num [newtonStep, horner, derivCoeff, List.enum]

lemma newtonStep_cycle1 : newtonStep 0 [2, -2, 0, 1] 0 1 = 0 := by
  norm_num [newtonStep, horner, derivCoeff, List.enum]

lemma invDispLoop_cycle (fuel : ℕ) :
    invDispLoop 0 [2, -2, 0, 1] 0 (1/100000000) fuel 0 = none ∧
    invDispLoop 0 [2, -2, 0, 1] 0 (1/100000000) fuel 1 = none := by
  induction fuel with
  | zero => exact ⟨rfl, rfl⟩
  | succ n ih =>
    constructor
    · rw [invDispLoop]
      simp only [newtonStep_cycle0]
      norm_num
      exact ih.2
    · rw [invDispLoop]
      simp only [newtonStep_cycle1]
      norm_num
      exact ih.1

/-- Claim C1: the claim states that `evalInvDisp` terminates for every
input because its Newton iteration is bounded by an explicit maximum
iteration count, failing with `ConvergenceFailure` when the step has not
fallen below the tolerance within the bound.  The source loop has no
such bound: on `wavelength = 0`, `coeff = [2, -2, 0, 1]`, `delta = 0`,
`tiny = 1e-8` the Newton iterate cycles between 0 and 1 with step size
1, so for EVERY iteration count the loop has neither converged nor
raised anything — the source spins forever on this input. -/
theorem evalInvDisp_newton_cycle_never_converges (fuel : ℕ) :
    evalInvDisp fuel 0 [2, -2, 0, 1] 0 (1/100000000) = Except.ok none := by
  have h := invDispLoop_cycle fuel
  simp only [evalInvDisp]
  norm_num
  convert h.1 using 2
  norm_num [abs]

/-! ## Claim C2: wildcard semantics of `getTable` row selection -/

/-- The row-match predicate exactly as claim C2 words it: for every
filter key, the filter value is the wildcard sentinel, or the stored
cell holds the wildcard sentinel REGARDLESS of the column type (string
or integer), or the two values are equal. -/
def claimC2Match (filter : List (String × Cell)) (row : Row) : Bool :=
  filter.all fun kv =>
    isFilterWildcard kv.2 ||
    (match rowField row kv.1 with
     | Cell.str s => s == STRING_WILDCARD
     | Cell.int i => i == INT_WILDCARD) ||
    cellEq (rowField row kv.1) kv.2

/-- Membership of a row in a `getTable` result. -/
def rowInResult (r : Except Err (Option (List Row))) (row : Row) : Prop :=
  match r with
  | Except.ok (some rows) => row ∈ rows
  | _ => False

/-- The row-match condition the source actually implements: a stored
wildcard sentinel is honored only in string columns (the integer
wildcard test is commented out in the source). -/
def sourceMatchProp (filter : List (String × Cell)) (row : Row) : Prop :=
  ∀ kv ∈ filter, isFilterWildcard kv.2 = true ∨
    (∃ s, rowField row kv.1 = Cell.str s ∧ s = STRING_WILDCARD) ∨
    cellEq (rowField row kv.1) kv.2 = true

/-- Claim C2 counterexample: a table whose single row stores the integer
wildcard sentinel in an integer column, filtered on that column with the
concrete value 5.  The claim says the stored wildcard matches regardless
of column type, so the row should be selected; `getTable` selects
nothing. -/
theorem getTable_int_wildcard_counterexample :
    claimC2Match [("opt_elem", Cell.int 5)] [("opt_elem", Cell.int (-1))] = true ∧
    getTable [[("opt_elem", Cell.int (-1))]] [("opt_elem", Cell.int 5)]
      false false = Except.ok none := by
  constructor
  · rfl
  · rfl

/-- Claim C2 (amended): `getTable` includes a row in its result exactly
when the row is in the table and, for every filter key, either the
filter value is a wildcard sentinel, or the stored cell is a STRING
cell holding the string wildcard sentinel (integer columns get no
stored-wildcard matching), or the values are equal; this holds for
every combination of the `exactly_one` / `at_least_one` flags. -/
theorem getTable_row_selection_amended (tbl : List Row)
    (filter : List (String × Cell)) (ex al : Bool) (row : Row) :
    rowInResult (getTable tbl filter ex al) row ↔
      row ∈ tbl ∧ sourceMatchProp filter row := by
  have hmatch : ∀ r : Row, rowMatch filter r = true ↔ sourceMatchProp filter r := by
    intro r
    simp only [rowMatch, List.all_eq_true, sourceMatchProp]
    refine forall_congr' fun kv => forall_congr' fun _ => ?_
    simp only [Bool.or_eq_true]
    constructor
    · rintro (h | h)
      · exact Or.inl h
      · simp only [cellMatches, Bool.or_eq_true] at h
        rcases h with h | h
        · exact Or.inr (Or.inr h)
        · refine Or.inr (Or.inl ?_)
          rcases hc : rowField r kv.1 with s | i
          · rw [hc] at h
            exact ⟨s, rfl, by simpa using h⟩
          · rw [hc] at h
            simp at h
    · rintro (h | ⟨s, hs, rfl⟩ | h)
      · exact Or.inl h
      · refine Or.inr ?_
        simp [cellMatches, hs]
      · refine Or.inr ?_
        simp [cellMatches, h]
  have hsel : ∀ r : Row, r ∈ selectRows tbl filter ↔
      r ∈ tbl ∧ sourceMatchProp filter r := by
    intro r
    rw [selectRows, List.mem_filter, hmatch]
  have hempty : ∀ h : (selectRows tbl filter).length < 1,
      ¬ (row ∈ tbl ∧ sourceMatchProp filter row) := by
    intro h hrm
    have hmem : row ∈ selectRows tbl filter := (hsel row).2 hrm
    have : 0 < (selectRows tbl filter).length := List.length_pos.2 (by
      intro hnil
      rw [hnil] at hmem
      simp at hmem)
    omega
  unfold getTable
  dsimp only
  split
  · next hcond =>
    have hlen : (selectRows tbl filter).length < 1 :=
      of_decide_eq_true ((Bool.and_eq_true _ _).mp hcond).2
    constructor
    · intro h
      simp [rowInResult] at h
    · intro h
      exact absurd h (hempty hlen)
  · next hcond =>
    split
    · next hlen =>
      constructor
      · intro h
        simp [rowInResult] at h
      · intro h
        exact absurd h (hempty hlen)
    · next hlen =>
      simp only [rowInResult]
      exact hsel row

/-- Claim C2 amended witness: the selection law at a concrete one-row
table and matching filter. -/
theorem getTable_row_selection_amended_witness :
    rowInResult (getTable [[("segment", Cell.str "FUVA")]]
        [("segment", Cell.str "FUVA")] false false)
        [("segment", Cell.str "FUVA")] ↔
      ([("segment", Cell.str "FUVA")] : Row) ∈
          [[("segment", Cell.str "FUVA")]] ∧
        sourceMatchProp [("segment", Cell.str "FUVA")]
          [("segment", Cell.str "FUVA")] :=
  getTable_row_selection_amended [[("segment", Cell.str "FUVA")]]
    [("segment", Cell.str "FUVA")] false false [("segment", Cell.str "FUVA")]

/-! ## Claim C3: behavior of `flagOutOfBounds` on non-positive subarray sizes -/

/-- A primary header with the subarray indicator present and set. -/
def cexPhdr : PrimaryHdr := ⟨true, true, "N/A"⟩

/-- An extension header declaring one subarray whose `size0x` and
`size0y` are 0 (non-positive). -/
def cexHdr : ExtHdr := ⟨1, fun _ => 0, fun _ => 0, fun _ => 0, fun _ => 0⟩

/-- NUV exposure info (fixed active area, no reference table needed). -/
def cexInfo : Info := ⟨0, "NUV", "N/A"⟩

/-- All calibration switches off. -/
def cexSw : Switches := ⟨"OMIT", "OMIT", "OMIT"⟩

/-- Empty thermal-parameter lists (tempcorr is off). -/
def cexStim : StimParam := ⟨[], [], [], []⟩

/-- A trivial, consistent geofile (geocorr is off). -/
def cexGeofile : GeoFile := ⟨⟨0, 0, 1, 1, fun _ _ => 0⟩, ⟨0, 0, 1, 1, fun _ _ => 0⟩⟩

/-- A constant non-zero DQ grid. -/
def cexDq : Grid := fun _ _ => 3

lemma filterMap_skip {α β : Type} (f : α → Option β) (p : α → Bool)
    (hf : ∀ x, p x = false → f x = none) :
    ∀ l : List α, l.filterMap f = (l.filter p).filterMap f := by
  intro l
  induction l with
  | nil => rfl
  | cons a t ih =>
    by_cases hp : p a = true
    · rw [List.filter_cons, if_pos hp, List.filterMap_cons,
        List.filterMap_cons, ih]
    · have hpn : p a = false := by simpa using hp
      rw [List.filter_cons, if_neg (by simp [hpn]), List.filterMap_cons,
        hf a hpn, ih]

lemma getTable_error_cases (tbl : List Row) (filter : List (String × Cell))
    (ex al : Bool) (e : Err)
    (h : getTable tbl filter ex al = Except.error e) : e = Err.noMatchingRow := by
  unfold getTable at h
  dsimp only at h
  split at h
  · injection h with h1
    exact h1.symm
  · split at h <;> cases h

lemma activeArea_error_cases (seg : String) (brf : List Row) (e : Err)
    (h : activeArea seg brf = Except.error e) : e = Err.noMatchingRow := by
  unfold activeArea at h
  split at h
  · cases h
  · split at h
    · next heq =>
      injection h with h1
      rw [← h1]
      exact getTable_error_cases _ _ _ _ _ heq
    · injection h with h1
      exact h1.symm
    · cases h

lemma getGeoData_error_cases (f : GeoFile) (e : Err)
    (h : getGeoData f = Except.error e) : e = Err.inconsistentGeofile := by
  unfold getGeoData at h
  dsimp only at h
  split at h
  · injection h with h1
    exact h1.symm
  · split at h
    · injection h with h1
      exact h1.symm
    · cases h

lemma flagOutOfBounds_error_cases (phdr : PrimaryHdr) (hdr : ExtHdr)
    (dq : Grid) (ny nx : ℕ) (stim : StimParam) (info : Info) (sw : Switches)
    (brftab : List Row) (geofile : GeoFile) (s1 s2 s3 s4 d1 d2 : ℚ) (e : Err)
    (h : flagOutOfBounds phdr hdr dq ny nx stim info sw brftab geofile
      s1 s2 s3 s4 d1 d2 = Except.error e) :
    e = Err.noMatchingRow ∨ e = Err.inconsistentGeofile := by
  unfold flagOutOfBounds at h
  dsimp only at h
  split at h
  · cases h
  split at h
  · cases h
  split at h
  · cases h
  split at h
  · next heq =>
    injection h with h1
    rw [← h1]
    exact Or.inl (activeArea_error_cases _ _ _ heq)
  · split at h
    · split at h
      · next heq =>
        injection h with h1
        rw [← h1]
        exact Or.inr (getGeoData_error_cases _ _ heq)
      · cases h
    · cases h

/-- Claim C3 counterexample: an exposure whose metadata contains a
subarray rectangle with `xsize = ysize = 0` (non-positive).  The claim
says `flagOutOfBounds` must fail hard with `MalformedSubarrayGeometry`;
the source instead silently skips the rectangle (`continue`) and
completes normally, returning an updated DQ array. -/
theorem flagOutOfBounds_nonpositive_size_no_error :
    cexHdr.sizeX 0 ≤ 0 ∧ cexHdr.sizeY 0 ≤ 0 ∧
    (flagOutOfBounds cexPhdr cexHdr cexDq 2 2 cexStim cexInfo cexSw
      [] cexGeofile 0 0 0 0 0 0).isOk = true := by
  refine ⟨le_refl 0, le_refl 0, ?_⟩
  rfl

/-- Claim C3 (amended): a subarray rectangle with non-positive `xsize`
or `ysize` is skipped when the subarray list is built — filtering such
slots away does not change the list — and `flagOutOfBounds` never fails
with `MalformedSubarrayGeometry` on any input (every error it can raise
is the active-area lookup's `NoMatchingRow` or the geofile consistency
check's `InconsistentGeofile`, neither of which is
`MalformedSubarrayGeometry`). -/
theorem flagOutOfBounds_skips_nonpositive_subarrays :
    (∀ (hdr : ExtHdr) (detector : String) (xwidth ywidth : ℤ)
       (indices : List ℕ),
       buildSubarrays hdr detector xwidth ywidth indices =
       buildSubarrays hdr detector xwidth ywidth
         (indices.filter fun i => !decide (hdr.sizeX i ≤ 0 ∨ hdr.sizeY i ≤ 0))) ∧
    (∀ (phdr : PrimaryHdr) (hdr : ExtHdr) (dq : Grid) (ny nx : ℕ)
       (stim : StimParam) (info : Info) (sw : Switches) (brftab : List Row)
       (geofile : GeoFile) (s1 s2 s3 s4 d1 d2 : ℚ),
       flagOutOfBounds phdr hdr dq ny nx stim info sw brftab geofile
         s1 s2 s3 s4 d1 d2 ≠ Except.error Err.malformedSubarrayGeometry) := by
  constructor
  · intro hdr detector xwidth ywidth indices
    unfold buildSubarrays
    refine filterMap_skip _ _ (fun x hx => ?_) indices
    have hskip : hdr.sizeX x ≤ 0 ∨ hdr.sizeY x ≤ 0 := by
      refine of_decide_eq_true ?_
      cases hd : decide (hdr.sizeX x ≤ 0 ∨ hdr.sizeY x ≤ 0) with
      | false => rw [hd] at hx; simp at hx
      | true => rfl
    simp [hskip]
  · intro phdr hdr dq ny nx stim info sw brftab geofile s1 s2 s3 s4 d1 d2 h
    rcases flagOutOfBounds_error_cases phdr hdr dq ny nx stim info sw
      brftab geofile s1 s2 s3 s4 d1 d2 Err.malformedSubarrayGeometry h with
      hc | hc <;> cases hc

/-- Claim C3 amended witness: the skip law applied to the concrete
counterexample header, and the no-failure law at the same input. -/
theorem flagOutOfBounds_skips_nonpositive_subarrays_witness :
    buildSubarrays cexHdr "NUV" 0 0 [0] =
      buildSubarrays cexHdr "NUV" 0 0
        ([0].filter fun i => !decide (cexHdr.sizeX i ≤ 0 ∨ cexHdr.sizeY i ≤ 0)) ∧
    flagOutOfBounds cexPhdr cexHdr cexDq 2 2 cexStim cexInfo cexSw
      [] cexGeofile 0 0 0 0 0 0 ≠ Except.error Err.malformedSubarrayGeometry :=
  ⟨flagOutOfBounds_skips_nonpositive_subarrays.1 cexHdr "NUV" 0 0 [0],
   flagOutOfBounds_skips_nonpositive_subarrays.2 cexPhdr cexHdr cexDq 2 2
     cexStim cexInfo cexSw [] cexGeofile 0 0 0 0 0 0⟩

/-! ## Claim C6: `flagOutOfBounds` is a no-op without a subarray window -/

/-- Claim C6: when the subarray indicator keyword is absent, or false,
or the subarray count is less than 1, `flagOutOfBounds` returns the DQ
array unchanged and succeeds — and it does so for EVERY `brftab`
argument, i.e. without consulting the reference table. -/
theorem flagOutOfBounds_noop_when_not_subarray
    (phdr : PrimaryHdr) (hdr : ExtHdr) (dq : Grid) (ny nx : ℕ)
    (stim : StimParam) (info : Info) (sw : Switches) (brftab : List Row)
    (geofile : GeoFile) (s1 s2 s3 s4 d1 d2 : ℚ)
    (h : phdr.hasSubarray = false ∨ phdr.subarray = false ∨ hdr.nsubarry < 1) :
    flagOutOfBounds phdr hdr dq ny nx stim info sw brftab geofile
      s1 s2 s3 s4 d1 d2 = Except.ok dq := by
  unfold flagOutOfBounds
  split
  · rfl
  split
  · rfl
  split
  · rfl
  · rcases h with h | h | h <;> simp_all

/-- Claim C6 witness: concrete exposure with the subarray indicator
false; the DQ array comes back unchanged. -/
theorem flagOutOfBounds_noop_when_not_subarray_witness :
    (PrimaryHdr.mk false true "FUVA").hasSubarray = false ∧
    flagOutOfBounds ⟨false, true, "FUVA"⟩ cexHdr cexDq 4 4 cexStim cexInfo
      cexSw [] cexGeofile 1 2 3 4 5 6 = Except.ok cexDq :=
  ⟨rfl, flagOutOfBounds_noop_when_not_subarray ⟨false, true, "FUVA"⟩ cexHdr
    cexDq 4 4 cexStim cexInfo cexSw [] cexGeofile 1 2 3 4 5 6 (Or.inl rfl)⟩

/-! ## Claim C4: the smear rule of `updateDQArray` -/

/-- Claim C4: for every bad-pixel row and every shift/Doppler envelope,
`updateDQArray` computes the dispersion bounds by subtracting the
rounded max shift from the lower and the rounded min shift from the
upper bound when the max shift is non-negative (min/max exchanged
otherwise), then adding the rounded Doppler minimum to the lower and
maximum to the upper bound; the cross-dispersion bounds follow the same
rule with no Doppler term.  With the all-zero envelope the bounds are
exactly the row's unshifted inclusive rectangle. -/
theorem dqBounds_smear_rule (lx ly dx dy : ℤ)
    (m1 M1 m2 M2 mind maxd : ℚ) :
    dqBounds lx ly dx dy m1 M1 m2 M2 mind maxd =
      ((if 0 ≤ M1 then lx - pyRound M1 else lx - pyRound m1) + pyRound mind,
       (if 0 ≤ M1 then lx + dx - 1 - pyRound m1
        else lx + dx - 1 - pyRound M1) + pyRound maxd,
       (if 0 ≤ M2 then ly - pyRound M2 else ly - pyRound m2),
       (if 0 ≤ M2 then ly + dy - 1 - pyRound m2
        else ly + dy - 1 - pyRound M2)) ∧
    dqBounds lx ly dx dy 0 0 0 0 0 0 = (lx, lx + dx - 1, ly, ly + dy - 1) := by
  constructor
  · rfl
  · have h0 : pyRound 0 = 0 := by norm_num [pyRound]
    simp [dqBounds, h0]

/-- Claim C4 witness: the zero-envelope case of the smear rule at the
scenario rectangle of the specification (lx 10, ly 20, dx 5, dy 5). -/
theorem dqBounds_smear_rule_witness :
    dqBounds 10 20 5 5 0 0 0 0 0 0 = (10, 10 + 5 - 1, 20, 20 + 5 - 1) :=
  (dqBounds_smear_rule 10 20 5 5 0 0 0 0 0 0).2

/-! ## Claim C5: flags only accumulate on the authoritative DQ array -/

/-- The grid held in a successful flagging result, or the untouched
input grid when the operation failed (a hard failure publishes no DQ
array at all). -/
def okGrid (r : Except Err Grid) (dflt : Grid) : Grid :=
  match r with
  | Except.ok g => g
  | Except.error _ => dflt

lemma bindq_mono (rows : List (ℤ × ℤ × ℤ × ℤ × ℕ)) (dq : Grid)
    (ny nx : ℕ) (xo : ℤ) (i j : ℤ) (k : ℕ)
    (h : (dq i j).testBit k = true) :
    ((bindq rows dq ny nx xo) i j).testBit k = true := by
  induction rows generalizing dq with
  | nil => exact h
  | cons r t ih =>
    rw [bindq, List.foldl_cons]
    refine ih _ ?_
    dsimp only
    split
    · simp [Nat.testBit_lor, h]
    · exact h

lemma gridOr_mono (a b : Grid) (i j : ℤ) (k : ℕ)
    (h : (a i j).testBit k = true) :
    ((gridOr a b) i j).testBit k = true := by
  simp [gridOr, Nat.testBit_lor, h]

/-- Claim C5: every flagging operation on the authoritative DQ array —
`updateDQArray`, `flagOutOfBounds`, `flagOutsideActiveArea` — only
accumulates flags through bitwise OR: any bit set in a pixel before the
operation is still set afterwards (only the per-pass scratch grid is
ever cleared, and only before the merge). -/
theorem dq_flags_accumulate_monotone :
    (∀ (bpixtab : List Row) (segment : String) (dq : Grid) (ny nx : ℕ)
       (xo : ℤ) (m1 M1 m2 M2 mind maxd : ℚ) (i j : ℤ) (k : ℕ),
       (dq i j).testBit k = true →
       ((updateDQArray bpixtab segment dq ny nx xo m1 M1 m2 M2 mind maxd)
         i j).testBit k = true) ∧
    (∀ (phdr : PrimaryHdr) (hdr : ExtHdr) (dq : Grid) (ny nx : ℕ)
       (stim : StimParam) (info : Info) (sw : Switches) (brftab : List Row)
       (geofile : GeoFile) (s1 s2 s3 s4 d1 d2 : ℚ) (i j : ℤ) (k : ℕ),
       (dq i j).testBit k = true →
       ((okGrid (flagOutOfBounds phdr hdr dq ny nx stim info sw brftab geofile
           s1 s2 s3 s4 d1 d2) dq) i j).testBit k = true) ∧
    (∀ (dq : Grid) (ny nx : ℕ) (segment : String) (brftab : List Row)
       (m1 M1 m2 M2 mind maxd : ℚ) (i j : ℤ) (k : ℕ),
       (dq i j).testBit k = true →
       ((okGrid (flagOutsideActiveArea dq ny nx segment brftab
           m1 M1 m2 M2 mind maxd) dq) i j).testBit k = true) := by
  refine ⟨?_, ?_, ?_⟩
  · intro bpixtab segment dq ny nx xo m1 M1 m2 M2 mind maxd i j k h
    unfold updateDQArray
    cases hg : getTable bpixtab [("segment", Cell.str segment)] false false with
    | error e => simp only [hg]; exact h
    | ok og =>
      cases og with
      | none => simp only [hg]; exact h
      | some rows =>
        simp only [hg]
        exact bindq_mono _ dq ny nx xo i j k h
  · intro phdr hdr dq ny nx stim info sw brftab geofile s1 s2 s3 s4 d1 d2 i j k h
    unfold flagOutOfBounds
    split
    · exact h
    split
    · exact h
    split
    · exact h
    · dsimp only
      split
      · exact h
      · split
        · split
          · exact h
          · exact gridOr_mono dq _ i j k h
        · exact gridOr_mono dq _ i j k h
  · intro dq ny nx segment brftab m1 M1 m2 M2 mind maxd i j k h
    unfold flagOutsideActiveArea
    split
    · exact h
    · split
      · exact h
      · dsimp only [okGrid]
        repeat' split
        all_goals simp [Nat.testBit_lor, h]

/-- Claim C5 witness: each of the three flagging operations applied at a
concrete state with bit 0 set at pixel (0, 0); the bit survives. -/
theorem dq_flags_accumulate_monotone_witness :
    ((updateDQArray [] "FUVA" cexDq 2 2 0 0 0 0 0 0 0) 0 0).testBit 0 = true ∧
    ((okGrid (flagOutOfBounds cexPhdr cexHdr cexDq 2 2 cexStim cexInfo cexSw
        [] cexGeofile 0 0 0 0 0 0) cexDq) 0 0).testBit 0 = true ∧
    ((okGrid (flagOutsideActiveArea cexDq 2 2 "FUVA" []
        0 0 0 0 0 0) cexDq) 0 0).testBit 0 = true :=
  ⟨dq_flags_accumulate_monotone.1 [] "FUVA" cexDq 2 2 0 0 0 0 0 0 0 0 0 0
     (by decide),
   dq_flags_accumulate_monotone.2.1 cexPhdr cexHdr cexDq 2 2 cexStim cexInfo
     cexSw [] cexGeofile 0 0 0 0 0 0 0 0 0 (by decide),
   dq_flags_accumulate_monotone.2.2 cexDq 2 2 "FUVA" [] 0 0 0 0 0 0 0 0 0
     (by decide)⟩

/-! ## Claim C7: the Doppler-range computation -/

/-- Claim C7: `minmaxDoppler` returns `(0, 0)` when the Doppler switch
is not PERFORM; when it is, it returns the minimum and maximum of
`shift (t) = -doppmag * sin (2 * pi * t / orbitper)` sampled at
1-second spacing over exactly `max (round (exptime), 1)` samples with
`t` starting at `(expstart - doppzero)` converted from days to seconds
(relative to the float `sin` routine and `pi` constant `sinq`, `piq`). -/
theorem minmaxDoppler_sampling (sinq : ℚ → ℚ) (piq : ℚ)
    (expstart exptime : ℚ) (doppcorr : String)
    (doppmag doppzero orbitper : ℚ) :
    (doppcorr ≠ "PERFORM" →
      minmaxDoppler sinq piq expstart exptime doppcorr doppmag doppzero
        orbitper = (0, 0)) ∧
    (doppcorr = "PERFORM" →
      minmaxDoppler sinq piq expstart exptime doppcorr doppmag doppzero
        orbitper =
      (npMin ((List.range (max (pyRound exptime) 1).toNat).map fun k =>
         -doppmag * sinq (2 * piq *
           ((k : ℚ) + (expstart - doppzero) * SEC_PER_DAY) / orbitper)),
       npMax ((List.range (max (pyRound exptime) 1).toNat).map fun k =>
         -doppmag * sinq (2 * piq *
           ((k : ℚ) + (expstart - doppzero) * SEC_PER_DAY) / orbitper)))) := by
  constructor
  · intro h
    simp [minmaxDoppler, h]
  · intro h
    simp [minmaxDoppler, h, dopplerSamples]

/-- Claim C7 witness: a disabled exposure yields `(0, 0)`; an enabled
2-second exposure yields the min and max of its two samples. -/
theorem minmaxDoppler_sampling_witness :
    ("OMIT" : String) ≠ "PERFORM" ∧
    minmaxDoppler (fun q => q) 3 0 2 "OMIT" 1 0 1 = (0, 0) ∧
    minmaxDoppler (fun q => q) 3 0 2 "PERFORM" 1 0 1 =
      (npMin ((List.range (max (pyRound 2) 1).toNat).map fun k =>
         -(1 : ℚ) * (fun q => q) (2 * 3 *
           ((k : ℚ) + ((0 : ℚ) - 0) * SEC_PER_DAY) / 1)),
       npMax ((List.range (max (pyRound 2) 1).toNat).map fun k =>
         -(1 : ℚ) * (fun q => q) (2 * 3 *
           ((k : ℚ) + ((0 : ℚ) - 0) * SEC_PER_DAY) / 1))) :=
  ⟨by decide,
   (minmaxDoppler_sampling (fun q => q) 3 0 2 "OMIT" 1 0 1).1 (by decide),
   (minmaxDoppler_sampling (fun q => q) 3 0 2 "PERFORM" 1 0 1).2 rfl⟩

/-! ## Claim C8: combination law of `combineStat` -/

lemma combineFold (l : List Stat) (a : CombAcc) :
    (l.foldl combineStep a).sum_n = a.sum_n + (l.map Stat.ngoodpix).sum ∧
    (l.foldl combineStep a).sci_max =
      (((l.filter fun s => decide (0 < s.ngoodpix)).map
        Stat.sci_goodmax).foldl max a.sci_max) ∧
    (l.foldl combineStep a).err_max =
      (((l.filter fun s => decide (0 < s.ngoodpix)).map
        Stat.err_goodmax).foldl max a.err_max) ∧
    (l.foldl combineStep a).sci_sum =
      a.sci_sum + (l.map fun s => (s.ngoodpix : ℚ) * s.sci_goodmean).sum ∧
    (l.foldl combineStep a).err_sum =
      a.err_sum + (l.map fun s => (s.ngoodpix : ℚ) * s.err_goodmean).sum := by
  induction l generalizing a with
  | nil => simp
  | cons s t ih =>
    obtain ⟨h1, h2, h3, h4, h5⟩ := ih (combineStep a s)
    by_cases hs : 0 < s.ngoodpix
    · have hstep : combineStep a s =
        ⟨a.sum_n + s.ngoodpix, max a.sci_max s.sci_goodmax,
         a.sci_sum + (s.ngoodpix : ℚ) * s.sci_goodmean,
         max a.err_max s.err_goodmax,
         a.err_sum + (s.ngoodpix : ℚ) * s.err_goodmean⟩ := by
        rw [combineStep, if_pos hs]
      refine ⟨?_, ?_, ?_, ?_, ?_⟩
      · rw [List.foldl_cons, h1, hstep]
        simp only [List.map_cons, List.sum_cons]
        omega
      · rw [List.foldl_cons, h2, hstep, List.filter_cons,
          if_pos (decide_eq_true hs), List.map_cons, List.foldl_cons]
      · rw [List.foldl_cons, h3, hstep, List.filter_cons,
          if_pos (decide_eq_true hs), List.map_cons, List.foldl_cons]
      · rw [List.foldl_cons, h4, hstep]
        simp only [List.map_cons, List.sum_cons]
        ring
      · rw [List.foldl_cons, h5, hstep]
        simp only [List.map_cons, List.sum_cons]
        ring
    · have hz : s.ngoodpix = 0 := by omega
      have hstep : combineStep a s = a := by
        rw [combineStep, if_neg hs]
      refine ⟨?_, ?_, ?_, ?_, ?_⟩
      · rw [List.foldl_cons, h1, hstep]
        simp only [List.map_cons, List.sum_cons, hz]
        omega
      · rw [List.foldl_cons, h2, hstep, List.filter_cons,
          if_neg (by simp [decide_eq_false hs])]
      · rw [List.foldl_cons, h3, hstep, List.filter_cons,
          if_neg (by simp [decide_eq_false hs])]
      · rw [List.foldl_cons, h4, hstep]
        simp only [List.map_cons, List.sum_cons, hz, Nat.cast_zero, zero_mul,
          zero_add]
      · rw [List.foldl_cons, h5, hstep]
        simp only [List.map_cons, List.sum_cons, hz, Nat.cast_zero, zero_mul,
          zero_add]

lemma weighted_sum_zero (l : List Stat) (f : Stat → ℚ)
    (h : (l.map Stat.ngoodpix).sum = 0) :
    (l.map fun s => (s.ngoodpix : ℚ) * f s).sum = 0 := by
  refine List.sum_eq_zero ?_
  intro x hx
  rw [List.mem_map] at hx
  obtain ⟨s, hs, rfl⟩ := hx
  have : s.ngoodpix = 0 := by
    have := List.sum_eq_zero_iff.mp h (s.ngoodpix)
      (List.mem_map.mpr ⟨s, hs, rfl⟩)
    exact this
  simp [this]

/-- Claim C8 counterexample: the claim says the combined maxima are the
maxima of the per-record maxima.  On the two-record list below the
per-record science maxima are 7 (from a record with zero good pixels)
and -3, so the claim demands 7; the source skips zero-count records and
folds the maxima from an initial 0, returning 0. -/
theorem combineStat_max_clamped_counterexample :
    (combineStat [⟨0, 7, 0, 0, 0⟩, ⟨1, -3, 0, 0, 0⟩]).sci_goodmax ≠
      max (7 : ℚ) (-3) := by
  norm_num [combineStat, combineStep]

/-- Claim C8 (amended): `combineStat` of a single-element list is that
element unchanged.  Otherwise the combined count is the sum of the
per-record counts; the combined maxima are folded with `max` from an
initial 0 over the records with POSITIVE count only; and when the total
count is positive the combined means are the count-weighted means of
the per-record means (when the total count is zero the means are 0). -/
theorem combineStat_combination_amended :
    (∀ s : Stat, combineStat [s] = s) ∧
    (∀ l : List Stat, l.length ≠ 1 →
      (combineStat l).ngoodpix = (l.map Stat.ngoodpix).sum ∧
      (combineStat l).sci_goodmax =
        (((l.filter fun s => decide (0 < s.ngoodpix)).map
          Stat.sci_goodmax).foldl max 0) ∧
      (combineStat l).err_goodmax =
        (((l.filter fun s => decide (0 < s.ngoodpix)).map
          Stat.err_goodmax).foldl max 0) ∧
      (0 < (l.map Stat.ngoodpix).sum →
        (combineStat l).sci_goodmean =
          (l.map fun s => (s.ngoodpix : ℚ) * s.sci_goodmean).sum /
            ((l.map Stat.ngoodpix).sum : ℚ) ∧
        (combineStat l).err_goodmean =
          (l.map fun s => (s.ngoodpix : ℚ) * s.err_goodmean).sum /
            ((l.map Stat.ngoodpix).sum : ℚ)) ∧
      ((l.map Stat.ngoodpix).sum = 0 →
        (combineStat l).sci_goodmean = 0 ∧
        (combineStat l).err_goodmean = 0)) := by
  constructor
  · intro s
    simp [combineStat]
  · intro l hne
    obtain ⟨h1, h2, h3, h4, h5⟩ := combineFold l ⟨0, 0, 0, 0, 0⟩
    simp only [zero_add] at h1 h4 h5
    unfold combineStat
    rw [if_neg hne]
    dsimp only
    by_cases hpos : 0 < (l.foldl combineStep ⟨0, 0, 0, 0, 0⟩).sum_n
    · rw [if_pos hpos]
      refine ⟨h1, h2, h3, fun _ => ⟨?_, ?_⟩, fun hz => ?_⟩
      · rw [h4, h1]
      · rw [h5, h1]
      · rw [h1] at hpos
        omega
    · rw [if_neg hpos]
      have hz : (l.map Stat.ngoodpix).sum = 0 := by
        rw [h1] at hpos
        omega
      refine ⟨h1, h2, h3, fun hp => absurd hz (by omega), fun _ => ⟨?_, ?_⟩⟩
      · rw [h4, weighted_sum_zero l _ hz]
      · rw [h5, weighted_sum_zero l _ hz]

/-- Claim C8 amended witness: a singleton returned unchanged, and the
count of a concrete two-record combination equal to the summed counts. -/
theorem combineStat_combination_amended_witness :
    combineStat [⟨2, 5, 7, 1, 3⟩] = ⟨2, 5, 7, 1, 3⟩ ∧
    (combineStat [⟨1, 2, 4, 0, 0⟩, ⟨3, 1, 8, 0, 0⟩]).ngoodpix =
      ([⟨1, 2, 4, 0, 0⟩, ⟨3, 1, 8, 0, 0⟩].map Stat.ngoodpix).sum :=
  ⟨combineStat_combination_amended.1 ⟨2, 5, 7, 1, 3⟩,
   (combineStat_combination_amended.2 [⟨1, 2, 4, 0, 0⟩, ⟨3, 1, 8, 0, 0⟩]
     (by decide)).1⟩

/-! ## Claim C9: `computeStat` on fully-flagged or empty input -/

/-- Claim C9: when every DQ entry has a serious flag set, or the arrays
are empty, `computeStat` returns the all-zero statistics record — the
good-pixel count is 0 and every division is guarded by `ngoodpix > 0`,
so nothing is computed from the empty selection. -/
theorem computeStat_all_flagged_zero_record :
    (∀ (sci : List ℚ) (err : Option (List ℚ)) (fl : List ℕ) (sdq : ℕ),
       (∀ f ∈ fl, f &&& sdq ≠ 0) →
       computeStat sci err (some fl) sdq = ⟨0, 0, 0, 0, 0⟩) ∧
    (∀ (err : Option (List ℚ)) (sdq : ℕ),
       computeStat [] err none sdq = ⟨0, 0, 0, 0, 0⟩) := by
  constructor
  · intro sci err fl sdq h
    have hmask : ∀ b : List ℚ, maskedSelect b fl sdq = [] := by
      intro b
      unfold maskedSelect
      have : (b.zip fl).filter (fun p => p.2 &&& sdq == 0) = [] := by
        refine List.filter_eq_nil_iff.mpr ?_
        intro p hp hpe
        exact h p.2 (List.of_mem_zip hp).2 (by simpa using hpe)
      rw [this, List.map_nil]
    cases err <;> simp [computeStat, hmask]
  · intro err sdq
    cases err <;> simp [computeStat, maskedSelect]

/-- Claim C9 witness: a concrete science/error pair whose two DQ values
both carry the serious flag; the returned record is all zeros. -/
theorem computeStat_all_flagged_zero_record_witness :
    (∀ f ∈ [1, 3], f &&& 1 ≠ 0) ∧
    computeStat [5, 6] (some [1, 2]) (some [1, 3]) 1 = ⟨0, 0, 0, 0, 0⟩ :=
  ⟨by decide,
   computeStat_all_flagged_zero_record.1 [5, 6] (some [1, 2]) [1, 3] 1
     (by decide)⟩

/-! ## Claim C10: `clearSubarray` clips to the grid -/

end Cosutil
